import Mathlib

/-!
Shallow embedding of `src/main.py` (a Telegram weather bot) and proofs of the
specification claims about it.

Python values flowing through the program are modelled by `Json` (the result of
`response.json()`), Python exceptions by `PyErr`, wall-clock readings by
`PyDateTime`.  Numbers are modelled as decimal numbers (`PyNum`): JSON numbers
are decimal literals, and all arithmetic the program performs on them
(`round`, string interpolation) is exact on decimals in the ranges involved.
-/

/-- Python numbers as they come out of `json.loads`: `int` for literals without
a decimal point, `float` (modelled as the decimal `m / 10^e`) otherwise. -/
inductive PyNum where
  | int (n : Int)
  | float (m : Int) (e : Nat)
deriving Repr

/-- JSON values, as returned by `response.json()`. -/
inductive Json where
  | null
  | bool (b : Bool)
  | str (s : String)
  | num (n : PyNum)
  | arr (l : List Json)
  | obj (l : List (String × Json))
deriving Repr

/-- Python exceptions that the modelled code can raise. -/
inductive PyErr where
  | keyError (k : String)
  | typeError (msg : String)
  | indexError (msg : String)
  | attributeError (msg : String)
deriving Repr, DecidableEq

/-- Decimal digit characters, used to render numbers. -/
def digitCh (n : Nat) : Char :=
  Nat.digitChar (n % 10)

/-- Decimal digits of `n` (most significant first); `fuel`-structured so that it
is kernel-reducible. -/
def natDigits : Nat → Nat → List Char
  | 0, _ => []
  | fuel + 1, n => if n < 10 then [digitCh n] else natDigits fuel (n / 10) ++ [digitCh n]

/-- Python `str` of a natural number. -/
def natRepr (n : Nat) : String :=
  ⟨natDigits (n + 1) n⟩

/-- Python `str` of an `int`. -/
def intRepr (i : Int) : String :=
  if i < 0 then "-" ++ natRepr i.natAbs else natRepr i.natAbs

/-- Drop trailing decimal zeros of the decimal `m / 10^e` (normalisation step of
Python float printing). -/
def stripZeros : Int → Nat → Int × Nat
  | m, 0 => (m, 0)
  | m, e + 1 => if m.emod 10 = 0 then stripZeros (m.ediv 10) e else (m, e + 1)

/-- Python `str` of a float whose value is the decimal `m / 10^e`: shortest
decimal form, always keeping at least one fractional digit (`str(4.0) = "4.0"`,
`str(4.10) = "4.1"`). -/
def floatRepr (m : Int) (e : Nat) : String :=
  let p := stripZeros m e
  if p.2 = 0 then intRepr p.1 ++ ".0"
  else
    let a := p.1.natAbs
    let fracS := natRepr (a % 10 ^ p.2)
    (if p.1 < 0 then "-" else "") ++ natRepr (a / 10 ^ p.2) ++ "." ++
      (⟨List.replicate (p.2 - fracS.length) '0'⟩ ++ fracS)

/-- Python `str` of a number. -/
def pyNumRepr : PyNum → String
  | .int n => intRepr n
  | .float m e => floatRepr m e

/-- Python `round` to an integer on the decimal `m / 10^e`: round to nearest,
ties to the even integer (banker's rounding). -/
def halfEvenRound (m : Int) (e : Nat) : Int :=
  let d : Int := (10 : Int) ^ e
  let q := m.ediv d
  let r := m.emod d
  if 2 * r < d then q
  else if d < 2 * r then q + 1
  else if q.emod 2 = 0 then q else q + 1

/-- Python `round(x)` for a number `x`. -/
def pyRoundNum : PyNum → Int
  | .int n => n
  | .float m e => halfEvenRound m e

/-- Join rendered elements with `", "`, as Python container printing does. -/
def joinComma : List String → String
  | [] => ""
  | [s] => s
  | s :: t => s ++ ", " ++ joinComma t

mutual

/-- Python `repr` of a JSON value (used for values nested in containers). -/
def pyReprJ : Json → String
  | .null => "None"
  | .bool true => "True"
  | .bool false => "False"
  | .str s => "\x27" ++ s ++ "\x27"
  | .num n => pyNumRepr n
  | .arr l => "[" ++ joinComma (pyReprList l) ++ "]"
  | .obj l => "\x7b" ++ joinComma (pyReprPairs l) ++ "\x7d"

/-- `repr` of each element of a JSON array. -/
def pyReprList : List Json → List String
  | [] => []
  | j :: t => pyReprJ j :: pyReprList t

/-- `repr` of each `key: value` pair of a JSON object. -/
def pyReprPairs : List (String × Json) → List String
  | [] => []
  | (k, v) :: t => ("\x27" ++ k ++ "\x27: " ++ pyReprJ v) :: pyReprPairs t

end

/-- Python `str` of a JSON value, as an f-string interpolation applies it. -/
def pyStr : Json → String
  | .str s => s
  | j => pyReprJ j

/-- Python truthiness of a JSON value (`if weather_data:`). -/
def Json.truthy : Json → Bool
  | .null => false
  | .bool b => b
  | .str s => !s.data.isEmpty
  | .num (.int n) => n != 0
  | .num (.float m _) => m != 0
  | .arr l => !l.isEmpty
  | .obj l => !l.isEmpty

/-- Python subscript `j[k]` with a string key: a key lookup on a dict,
`KeyError` when the key is absent, `TypeError` on non-dict values. -/
def Json.getItem : Json → String → Except PyErr Json
  | .obj l, k =>
    match l.lookup k with
    | some v => .ok v
    | none => .error (.keyError k)
  | _, k => .error (.typeError ("object is not subscriptable with key " ++ k))

/-- Python subscript `j[i]` with an integer index: list indexing,
`IndexError` out of range, `KeyError` on a dict (no such key). -/
def Json.getIdx : Json → Nat → Except PyErr Json
  | .arr l, i =>
    match l.get? i with
    | some v => .ok v
    | none => .error (.indexError "list index out of range")
  | .obj _, _ => .error (.keyError "0")
  | _, _ => .error (.typeError "object is not subscriptable")

/-- Python `round(j)` on a JSON value: numbers round half-to-even, bools are
ints, everything else raises `TypeError`. -/
def pyRoundJ : Json → Except PyErr Int
  | .num n => .ok (pyRoundNum n)
  | .bool b => .ok (if b then 1 else 0)
  | _ => .error (.typeError "type does not define __round__")

/-- Uppercase a character the way Python `str.capitalize` needs it here
(ASCII and Cyrillic). -/
def upChar (c : Char) : Char :=
  if 'a' ≤ c && c ≤ 'z' then Char.ofNat (c.toNat - 32)
  else if 'а' ≤ c && c ≤ 'я' then Char.ofNat (c.toNat - 32)
  else if c = 'ё' then 'Ё'
  else c

/-- Lowercase a character (ASCII and Cyrillic). -/
def downChar (c : Char) : Char :=
  if 'A' ≤ c && c ≤ 'Z' then Char.ofNat (c.toNat + 32)
  else if 'А' ≤ c && c ≤ 'Я' then Char.ofNat (c.toNat + 32)
  else if c = 'Ё' then 'ё'
  else c

/-- Python `str.capitalize`: first character uppercased, the rest lowercased. -/
def pyCapitalize (s : String) : String :=
  match s.data with
  | [] => ""
  | c :: t => ⟨upChar c :: t.map downChar⟩

/-- Python `.capitalize()` attribute access on a JSON value: only strings have
it, everything else raises `AttributeError`. -/
def pyCapitalizeJ : Json → Except PyErr String
  | .str s => .ok (pyCapitalize s)
  | _ => .error (.attributeError "object has no attribute capitalize")

/-- A wall-clock reading, as `datetime.now()` returns it. -/
structure PyDateTime where
  day : Nat
  month : Nat
  year : Nat
  hour : Nat
  minute : Nat
deriving Repr, DecidableEq

/-- Two-digit zero-padded rendering (`%d`, `%m`, `%H`, `%M`). -/
def twoDig (n : Nat) : String :=
  ⟨[digitCh (n / 10), digitCh n]⟩

/-- Four-digit zero-padded rendering (`%Y`). -/
def fourDig (n : Nat) : String :=
  ⟨[digitCh (n / 1000), digitCh (n / 100), digitCh (n / 10), digitCh n]⟩

/-- `datetime.now().strftime('%d.%m.%Y')`. -/
def dateStr (t : PyDateTime) : String :=
  twoDig t.day ++ "." ++ twoDig t.month ++ "." ++ fourDig t.year

/-- `datetime.now().strftime('%H:%M')`. -/
def timeStr (t : PyDateTime) : String :=
  twoDig t.hour ++ ":" ++ twoDig t.minute

/-- Characters Python `str.strip()` removes. -/
def isPySpace (c : Char) : Bool :=
  c = ' ' || c = '\t' || c = '\n' || c = '\x0d' || c = '\x0b' || c = '\x0c'

/-- Python `str.strip()` on the character list. -/
def pystrip (l : List Char) : List Char :=
  ((l.dropWhile isPySpace).reverse.dropWhile isPySpace).reverse

/-- Python `str.strip()`. -/
def pystripS (s : String) : String :=
  ⟨pystrip s.data⟩

/-! ## The program's operations, translated from `src/main.py` -/

/-- The fixed error string `format_weather_message` returns on falsy input
(line 89 of `main.py`). -/
def errNoData : String := "❌ Не удалось получить данные о погоде."

/-- The raw (unstripped) f-string template of `format_weather_message`
(lines 98–109 of `main.py`), with every interpolation already rendered to a
string. -/
def rawMessage (city temp fl desc hum wind dS tS : String) : String :=
  "\n🌤 Прогноз погоды для города " ++ city ++
  "\n\n🌡 Температура: " ++ temp ++
  "°C\n🤔 Ощущается как: " ++ fl ++
  "°C\n☁️ Описание: " ++ desc ++
  "\n💧 Влажность: " ++ hum ++
  "%\n💨 Скорость ветра: " ++ wind ++
  " м/с\n\n📅 Дата: " ++ dS ++
  "\n⏰ Время: " ++ tS ++
  "\n    "

/-- The same template after `.strip()`: the leading newline and the trailing
newline-plus-indentation are gone. -/
def strippedMessage (city temp fl desc hum wind dS tS : String) : String :=
  "🌤 Прогноз погоды для города " ++ city ++
  "\n\n🌡 Температура: " ++ temp ++
  "°C\n🤔 Ощущается как: " ++ fl ++
  "°C\n☁️ Описание: " ++ desc ++
  "\n💧 Влажность: " ++ hum ++
  "%\n💨 Скорость ветра: " ++ wind ++
  " м/с\n\n📅 Дата: " ++ dS ++
  "\n⏰ Время: " ++ tS

/-- `format_weather_message(weather_data)` (lines 84–111 of `main.py`).

The Python function reads the global clock twice (`datetime.now()` on lines
107 and 108); those two ambient readings are made explicit inputs `now1`
(date) and `now2` (time).  Field accesses are performed in source order; any
raised exception (`KeyError`, `TypeError` from `round`, `AttributeError` from
`.capitalize()`, `IndexError`) is propagated as `.error`. -/
def format_weather_message (weather_data : Option Json) (now1 now2 : PyDateTime) :
    Except PyErr String :=
  match weather_data with
  | none => .ok errNoData
  | some j =>
    if j.truthy = false then .ok errNoData
    else do
      let cityJ ← j.getItem "name"
      let tempJ ← (← j.getItem "main").getItem "temp"
      let temp ← pyRoundJ tempJ
      let flJ ← (← j.getItem "main").getItem "feels_like"
      let fl ← pyRoundJ flJ
      let descJ ← (← (← j.getItem "weather").getIdx 0).getItem "description"
      let desc ← pyCapitalizeJ descJ
      let humJ ← (← j.getItem "main").getItem "humidity"
      let windJ ← (← j.getItem "wind").getItem "speed"
      .ok (pystripS (rawMessage (pyStr cityJ) (intRepr temp) (intRepr fl) desc
            (pyStr humJ) (pyStr windJ) (dateStr now1) (timeStr now2)))

/-- The ways `requests.get` itself can fail: all of them are subclasses of
`requests.exceptions.RequestException`. -/
inductive ReqFailure where
  | timeout
  | connectionError (msg : String)
deriving Repr, DecidableEq

/-- Outcome of the HTTP GET issued by `get_weather`: either the request raised,
or a response with a status code and a parsed JSON body came back. -/
inductive HttpOutcome where
  | exc (e : ReqFailure)
  | response (status : Nat) (body : Json)

/-- `response.raise_for_status()`: raises `HTTPError` (a subclass of
`RequestException`) exactly for 4xx/5xx status codes. -/
def raise_for_status (status : Nat) : Bool :=
  decide (400 ≤ status ∧ status < 600)

/-- `get_weather(city)` (lines 62–82 of `main.py`), as a function of the HTTP
outcome: any `RequestException` (network error, timeout, or the `HTTPError`
from `raise_for_status`) is caught and turned into `None`; otherwise the parsed
JSON body is returned as-is, with no field validation. -/
def get_weather (outcome : HttpOutcome) : Option Json :=
  match outcome with
  | .exc _ => none
  | .response status body =>
    if raise_for_status status then none else some body

/-- Python `str(e)` for the modelled exceptions (`str(KeyError(k))` is the
`repr` of the key, hence quoted). -/
def pyErrStr : PyErr → String
  | .keyError k => "\x27" ++ k ++ "\x27"
  | .typeError m => m
  | .indexError m => m
  | .attributeError m => m

/-- Truthiness of `weather_data` as tested by `if weather_data:` in
`weather_handler` (line 53): `None` and empty containers are falsy. -/
def optTruthy : Option Json → Bool
  | none => false
  | some j => j.truthy

/-- The body of the `try:` block of `weather_handler` (lines 50–57): fetch,
test, format, and produce the reply text.  The fetch step is given as an
`Except` so that exceptions escaping `get_weather` itself are representable. -/
def weather_command_flow (fetchR : Except PyErr (Option Json)) (now1 now2 : PyDateTime) :
    Except PyErr String := do
  let weather_data ← fetchR
  if optTruthy weather_data then
    format_weather_message weather_data now1 now2
  else
    .ok "❌ Не удалось получить данные о погоде. Попробуйте позже."

/-- `weather_handler` (lines 48–60 of `main.py`): runs the flow inside
`try: ... except Exception as e:` and always produces a reply string; an
exception is converted to the generic error reply carrying `str(e)`. -/
def weather_handler (fetchR : Except PyErr (Option Json)) (now1 now2 : PyDateTime) :
    String :=
  match weather_command_flow fetchR now1 now2 with
  | .ok reply => reply
  | .error e => "❌ Произошла ошибка: " ++ pyErrStr e

/-- Outcome of `bot.send_message` in `send_weather_update`: either delivery
succeeded or the provider raised a `TelegramError` with a message. -/
inductive SendOutcome where
  | success
  | failure (err : String)
deriving Repr, DecidableEq

/-- Observable events of one run of `send_weather_update`. -/
inductive SendEvent where
  | attempt (msg : String)
  | logSuccess
  | logError (err : String)
deriving Repr, DecidableEq

/-- `send_weather_update()` (lines 113–128 of `main.py`), as a function of the
fetched data and the provider outcome.  The value is the trace of send
attempts and log lines; `format_weather_message` is called outside the `try:`
block, so an exception it raises propagates (`.error`).  The provider error is
caught (`except TelegramError`) and logged. -/
def send_weather_update (wd : Option Json) (now1 now2 : PyDateTime)
    (send : SendOutcome) : Except PyErr (List SendEvent) :=
  match format_weather_message wd now1 now2 with
  | .error e => .error e
  | .ok msg =>
    match send with
    | .success => .ok [.attempt msg, .logSuccess]
    | .failure err => .ok [.attempt msg, .logError err]

/-- Number of provider send attempts in a trace (for the no-retry property). -/
def countAttempts (tr : List SendEvent) : Nat :=
  (tr.filter fun ev => match ev with | .attempt _ => true | _ => false).length

/-- A job registered with the scheduler: its identifier and the
`CronTrigger(hour=…, minute=…)` fields the repository uses. -/
structure SchedJob where
  id : String
  hour : Nat
  minute : Nat
deriving Repr, DecidableEq

/-- Modelled from the spec: APScheduler's `add_job` (the scheduler library is
an external dependency, not part of `src/`).  "Re-adding a job with the same
identifier replaces rather than duplicates it (idempotent registration)" when
`replace_existing=True` is passed; without it a conflicting id is an error. -/
def add_job (jobs : List SchedJob) (j : SchedJob) (replace_existing : Bool) :
    Except String (List SchedJob) :=
  if jobs.any fun o => o.id = j.id then
    if replace_existing then
      .ok (jobs.map fun o => if o.id = j.id then j else o)
    else
      .error "ConflictingIdError"
  else
    .ok (jobs ++ [j])

/-- The exact registration `main()` performs (lines 150–156 of `main.py`):
`add_job(send_weather_update, CronTrigger(hour=8, minute=0),
id='weather_update', replace_existing=True)`. -/
def register_weather_job (jobs : List SchedJob) : Except String (List SchedJob) :=
  add_job jobs ⟨"weather_update", 8, 0⟩ true

/-- A daily cron job fires at wall-clock time `h:m` iff its trigger fields
match. -/
def firesAt (j : SchedJob) (h m : Nat) : Bool :=
  j.hour = h && j.minute = m

/-- Python falsiness of `os.getenv`'s result: `None` (unset) and the empty
string are falsy. -/
def envFalsy : Option String → Bool
  | none => true
  | some s => s.data.isEmpty

/-- The validated startup configuration. -/
structure Config where
  telegramToken : String
  chatId : String
  weatherApiKey : String
  city : String
deriving Repr, DecidableEq

/-- The module-level configuration loading and validation of `main.py`
(lines 17–28): read the four variables, then raise `ValueError` with a
descriptive message for the first missing required one, in source order. -/
def module_init (env : String → Option String) : Except String Config :=
  let t := env "TELEGRAM_BOT_TOKEN"
  let c := env "TELEGRAM_CHAT_ID"
  let w := env "OPENWEATHER_API_KEY"
  let city := (env "CITY").getD "Moscow"
  if envFalsy t then .error "TELEGRAM_BOT_TOKEN не установлен! Добавьте его в файл .env"
  else if envFalsy c then .error "TELEGRAM_CHAT_ID не установлен! Добавьте его в файл .env"
  else if envFalsy w then .error "OPENWEATHER_API_KEY не установлен! Добавьте его в файл .env"
  else .ok ⟨t.getD "", c.getD "", w.getD "", city⟩

/-- A network interaction of the running process. -/
inductive NetEvent where
  | call (desc : String)
deriving Repr, DecidableEq

/-- Process startup: the module-level validation runs before any network
activity (the Telegram application is only built on line 31, after the checks,
and all network calls happen in `main()`).  The first component is the list of
network interactions performed. -/
def process_start (env : String → Option String) :
    List NetEvent × Except String Config :=
  match module_init env with
  | .error e => ([], .error e)
  | .ok cfg =>
    ([.call "telegram.initialize", .call "telegram.start_polling",
      .call "openweathermap.get"], .ok cfg)


/-! ## Concrete sample data used by witnesses and counterexamples -/

/-- The `"main"` object of the spec-scenario response body. -/
def sampleMain : List (String × Json) :=
  [("temp", .num (.float 32 1)), ("feels_like", .num (.float (-10) 1)),
    ("humidity", .num (.int 80))]

/-- The first element of the `"weather"` array of the spec-scenario body. -/
def sampleWf : List (String × Json) :=
  [("description", .str "snow")]

/-- The `"wind"` object of the spec-scenario body. -/
def sampleWind : List (String × Json) :=
  [("speed", .num (.float 41 1))]

/-- The fields of the weather-provider response body of the spec scenario:
`{"name":"Moscow","main":{"temp":3.2,"feels_like":-1.0,"humidity":80},
"weather":[{"description":"snow"}],"wind":{"speed":4.1}}`. -/
def sampleFields : List (String × Json) :=
  [("name", .str "Moscow"), ("main", .obj sampleMain),
    ("weather", .arr [.obj sampleWf]), ("wind", .obj sampleWind)]

/-- The spec-scenario response body as a JSON value. -/
def sampleWeather : Json := .obj sampleFields

/-- A `"main"` object whose temperatures sit exactly on rounding ties:
`temp = 2.5`, `feels_like = 3.5`. -/
def tieMain : List (String × Json) :=
  [("temp", .num (.float 25 1)), ("feels_like", .num (.float 35 1)),
    ("humidity", .num (.int 80))]

/-- A full response body with tie-valued temperatures. -/
def tieFields : List (String × Json) :=
  [("name", .str "Moscow"), ("main", .obj tieMain),
    ("weather", .arr [.obj sampleWf]), ("wind", .obj sampleWind)]

/-- The message `format_weather_message` produces for `sampleWeather` at
02.01.2024 08:00. -/
def sampleMessage : String :=
  "🌤 Прогноз погоды для города Moscow\n\n🌡 Температура: 3°C\n🤔 Ощущается как: -1°C\n☁️ Описание: Snow\n💧 Влажность: 80%\n💨 Скорость ветра: 4.1 м/с\n\n📅 Дата: 02.01.2024\n⏰ Время: 08:00"

/-! ## Helper lemmas -/

lemma isPySpace_digitCh (n : Nat) : isPySpace (digitCh n) = false := by
  unfold digitCh
  have h : n % 10 < 10 := Nat.mod_lt n (by norm_num)
  revert h
  generalize n % 10 = r
  intro h
  interval_cases r <;> decide

lemma rawMessage_wrap (city temp fl desc hum wind dS tS : String) :
    rawMessage city temp fl desc hum wind dS tS =
      "\n" ++ strippedMessage city temp fl desc hum wind dS tS ++ "\n    " := by
  have h1 : ("\n🌤 Прогноз погоды для города " : String) =
      "\n" ++ "🌤 Прогноз погоды для города " := rfl
  rw [rawMessage, strippedMessage, h1]
  apply String.ext
  simp [String.data_append, List.append_assoc]

lemma pystrip_wrap (M : List Char) (c : Char) (hM : M.head? = some c)
    (hc : isPySpace c = false) (d : Char) (hd' : M.getLast? = some d)
    (hd : isPySpace d = false) :
    pystrip ('\n' :: (M ++ ('\n' :: [' ', ' ', ' ', ' ']))) = M := by
  obtain ⟨t, rfl⟩ : ∃ t, M = c :: t := by
    cases M with
    | nil => simp at hM
    | cons a t => simp at hM; exact ⟨t, by rw [hM]⟩
  have hrev : (c :: t).reverse.head? = some d := by rw [List.head?_reverse]; exact hd'
  obtain ⟨r, hr⟩ : ∃ r, (c :: t).reverse = d :: r := by
    cases hrw : (c :: t).reverse with
    | nil => rw [hrw] at hrev; simp at hrev
    | cons a r => rw [hrw] at hrev; simp at hrev; exact ⟨r, by rw [hrev]⟩
  unfold pystrip
  rw [List.dropWhile_cons]
  simp only [show isPySpace '\n' = true from rfl, if_true]
  rw [show (c :: t) ++ ('\n' :: [' ', ' ', ' ', ' ']) = c :: (t ++ ('\n' :: [' ', ' ', ' ', ' '])) from rfl]
  rw [List.dropWhile_cons]
  simp only [hc, Bool.false_eq_true, if_false]
  rw [show c :: (t ++ ('\n' :: [' ', ' ', ' ', ' '])) = (c :: t) ++ ('\n' :: [' ', ' ', ' ', ' '])  from rfl]
  rw [List.reverse_append, hr]
  rw [show ('\n' :: [' ', ' ', ' ', ' ']).reverse ++ (d :: r) =
        ' ' :: ' ' :: ' ' :: ' ' :: '\n' :: d :: r from rfl]
  simp only [List.dropWhile_cons, show isPySpace ' ' = true from rfl,
    show isPySpace '\n' = true from rfl, if_true, hd, Bool.false_eq_true, if_false]
  rw [← hr, List.reverse_reverse]

lemma strippedMessage_head (city temp fl desc hum wind dS tS : String) :
    (strippedMessage city temp fl desc hum wind dS tS).data.head? = some '🌤' := by
  unfold strippedMessage
  simp only [String.data_append, List.head?_append]
  rw [show ("🌤 Прогноз погоды для города " : String).data.head? = some '🌤' from rfl]
  rfl

lemma strippedMessage_last (city temp fl desc hum wind dS : String) (n : PyDateTime) :
    (strippedMessage city temp fl desc hum wind dS (timeStr n)).data.getLast? =
      some (digitCh n.minute) := by
  unfold strippedMessage
  simp only [String.data_append, List.getLast?_append]
  rw [show (timeStr n).data = [digitCh (n.hour / 10), digitCh n.hour, ':',
        digitCh (n.minute / 10), digitCh n.minute] from rfl]
  rfl

lemma pystripS_raw (city temp fl desc hum wind dS : String) (n : PyDateTime) :
    pystripS (rawMessage city temp fl desc hum wind dS (timeStr n)) =
      strippedMessage city temp fl desc hum wind dS (timeStr n) := by
  rw [rawMessage_wrap]
  unfold pystripS
  have hdata : ("\n" ++ strippedMessage city temp fl desc hum wind dS (timeStr n) ++ "\n    ").data
      = '\n' :: ((strippedMessage city temp fl desc hum wind dS (timeStr n)).data ++
          ('\n' :: [' ', ' ', ' ', ' '])) := by
    simp only [String.data_append]
    simp [List.append_assoc]
  rw [hdata, pystrip_wrap _ '🌤' (strippedMessage_head city temp fl desc hum wind dS (timeStr n))
    (by decide) (digitCh n.minute) (strippedMessage_last city temp fl desc hum wind dS n)
    (isPySpace_digitCh n.minute)]

lemma format_eval (fields mainF wf windF : List (String × Json)) (city : String)
    (tn fn sp : PyNum) (hm : Json) (desc : String) (wrest : List Json) (n1 n2 : PyDateTime)
    (hname : fields.lookup "name" = some (.str city))
    (hmain : fields.lookup "main" = some (.obj mainF))
    (htemp : mainF.lookup "temp" = some (.num tn))
    (hfl : mainF.lookup "feels_like" = some (.num fn))
    (hweather : fields.lookup "weather" = some (.arr (Json.obj wf :: wrest)))
    (hdesc : wf.lookup "description" = some (.str desc))
    (hhum : mainF.lookup "humidity" = some hm)
    (hwind : fields.lookup "wind" = some (.obj windF))
    (hspeed : windF.lookup "speed" = some (.num sp)) :
    format_weather_message (some (.obj fields)) n1 n2 =
      .ok (strippedMessage city (intRepr (pyRoundNum tn)) (intRepr (pyRoundNum fn))
        (pyCapitalize desc) (pyStr hm) (pyStr (.num sp)) (dateStr n1) (timeStr n2)) := by
  have hne : fields ≠ [] := by intro h; rw [h] at hname; simp at hname
  have htr : (Json.obj fields).truthy = true := by
    cases fields with
    | nil => exact absurd rfl hne
    | cons a t => rfl
  unfold format_weather_message
  simp only [htr, Bool.true_eq_false, if_false, Json.getItem, hname, hmain, htemp, hfl,
    hweather, hdesc, hhum, hwind, hspeed, Json.getIdx, pyRoundJ, pyCapitalizeJ,
    bind, Except.bind, pyStr, pystripS_raw, List.get?]

/-- `sub` occurs verbatim (as a contiguous substring) in `s`. -/
abbrev strContains (s sub : String) : Prop := sub.data <:+: s.data

lemma strContains_trans_eq (s sub : String) (t : String) (h : s = t)
    (h2 : strContains t sub) : strContains s sub := h ▸ h2

lemma sm_contains_city (city temp fl desc hum wind dS tS : String) :
    strContains (strippedMessage city temp fl desc hum wind dS tS) city := by
  unfold strContains strippedMessage
  simp only [String.data_append, List.append_assoc]
  exact ⟨("🌤 Прогноз погоды для города " : String).data,
    ("\n\n🌡 Температура: " : String).data ++ temp.data ++
      ("°C\n🤔 Ощущается как: " : String).data ++ fl.data ++
      ("°C\n☁️ Описание: " : String).data ++ desc.data ++
      ("\n💧 Влажность: " : String).data ++ hum.data ++
      ("%\n💨 Скорость ветра: " : String).data ++ wind.data ++
      (" м/с\n\n📅 Дата: " : String).data ++ dS.data ++
      ("\n⏰ Время: " : String).data ++ tS.data,
    by simp [List.append_assoc]⟩

lemma sm_contains_temp (city temp fl desc hum wind dS tS : String) :
    strContains (strippedMessage city temp fl desc hum wind dS tS)
      ("🌡 Температура: " ++ temp ++ "°C") := by
  unfold strContains strippedMessage
  rw [show ("\n\n🌡 Температура: " : String) = "\n\n" ++ "🌡 Температура: " from rfl,
    show ("°C\n🤔 Ощущается как: " : String) = "°C" ++ "\n🤔 Ощущается как: " from rfl]
  simp only [String.data_append, List.append_assoc]
  exact ⟨("🌤 Прогноз погоды для города " : String).data ++ city.data ++ ("\n\n" : String).data,
    ("\n🤔 Ощущается как: " : String).data ++ fl.data ++ ("°C\n☁️ Описание: " : String).data ++
      desc.data ++ ("\n💧 Влажность: " : String).data ++ hum.data ++
      ("%\n💨 Скорость ветра: " : String).data ++ wind.data ++ (" м/с\n\n📅 Дата: " : String).data ++
      dS.data ++ ("\n⏰ Время: " : String).data ++ tS.data,
    by simp [List.append_assoc]⟩
lemma sm_contains_flv (city temp fl desc hum wind dS tS : String) :
    strContains (strippedMessage city temp fl desc hum wind dS tS) fl := by
  unfold strContains strippedMessage
  simp only [String.data_append, List.append_assoc]
  exact ⟨("🌤 Прогноз погоды для города " : String).data ++
      city.data ++
      ("\n\n🌡 Температура: " : String).data ++
      temp.data ++
      ("°C\n🤔 Ощущается как: " : String).data,
    ("°C\n☁️ Описание: " : String).data ++
      desc.data ++
      ("\n💧 Влажность: " : String).data ++
      hum.data ++
      ("%\n💨 Скорость ветра: " : String).data ++
      wind.data ++
      (" м/с\n\n📅 Дата: " : String).data ++
      dS.data ++
      ("\n⏰ Время: " : String).data ++
      tS.data,
    by simp [List.append_assoc]⟩

lemma sm_contains_desc (city temp fl desc hum wind dS tS : String) :
    strContains (strippedMessage city temp fl desc hum wind dS tS) desc := by
  unfold strContains strippedMessage
  simp only [String.data_append, List.append_assoc]
  exact ⟨("🌤 Прогноз погоды для города " : String).data ++
      city.data ++
      ("\n\n🌡 Температура: " : String).data ++
      temp.data ++
      ("°C\n🤔 Ощущается как: " : String).data ++
      fl.data ++
      ("°C\n☁️ Описание: " : String).data,
    ("\n💧 Влажность: " : String).data ++
      hum.data ++
      ("%\n💨 Скорость ветра: " : String).data ++
      wind.data ++
      (" м/с\n\n📅 Дата: " : String).data ++
      dS.data ++
      ("\n⏰ Время: " : String).data ++
      tS.data,
    by simp [List.append_assoc]⟩

lemma sm_contains_hum (city temp fl desc hum wind dS tS : String) :
    strContains (strippedMessage city temp fl desc hum wind dS tS) hum := by
  unfold strContains strippedMessage
  simp only [String.data_append, List.append_assoc]
  exact ⟨("🌤 Прогноз погоды для города " : String).data ++
      city.data ++
      ("\n\n🌡 Температура: " : String).data ++
      temp.data ++
      ("°C\n🤔 Ощущается как: " : String).data ++
      fl.data ++
      ("°C\n☁️ Описание: " : String).data ++
      desc.data ++
      ("\n💧 Влажность: " : String).data,
    ("%\n💨 Скорость ветра: " : String).data ++
      wind.data ++
      (" м/с\n\n📅 Дата: " : String).data ++
      dS.data ++
      ("\n⏰ Время: " : String).data ++
      tS.data,
    by simp [List.append_assoc]⟩

lemma sm_contains_wind (city temp fl desc hum wind dS tS : String) :
    strContains (strippedMessage city temp fl desc hum wind dS tS) wind := by
  unfold strContains strippedMessage
  simp only [String.data_append, List.append_assoc]
  exact ⟨("🌤 Прогноз погоды для города " : String).data ++
      city.data ++
      ("\n\n🌡 Температура: " : String).data ++
      temp.data ++
      ("°C\n🤔 Ощущается как: " : String).data ++
      fl.data ++
      ("°C\n☁️ Описание: " : String).data ++
      desc.data ++
      ("\n💧 Влажность: " : String).data ++
      hum.data ++
      ("%\n💨 Скорость ветра: " : String).data,
    (" м/с\n\n📅 Дата: " : String).data ++
      dS.data ++
      ("\n⏰ Время: " : String).data ++
      tS.data,
    by simp [List.append_assoc]⟩

lemma sm_contains_tempv (city temp fl desc hum wind dS tS : String) :
    strContains (strippedMessage city temp fl desc hum wind dS tS) temp := by
  unfold strContains strippedMessage
  simp only [String.data_append, List.append_assoc]
  exact ⟨("🌤 Прогноз погоды для города " : String).data ++
      city.data ++
      ("\n\n🌡 Температура: " : String).data,
    ("°C\n🤔 Ощущается как: " : String).data ++
      fl.data ++
      ("°C\n☁️ Описание: " : String).data ++
      desc.data ++
      ("\n💧 Влажность: " : String).data ++
      hum.data ++
      ("%\n💨 Скорость ветра: " : String).data ++
      wind.data ++
      (" м/с\n\n📅 Дата: " : String).data ++
      dS.data ++
      ("\n⏰ Время: " : String).data ++
      tS.data,
    by simp [List.append_assoc]⟩

lemma sm_contains_tempBlock (city temp fl desc hum wind dS tS : String) :
    strContains (strippedMessage city temp fl desc hum wind dS tS)
      ("🌡 Температура: " ++ temp ++ "°C") := by
  unfold strContains strippedMessage
  rw [show ("\n\n🌡 Температура: " : String) = "\n\n" ++ "🌡 Температура: " from rfl,
    show ("°C\n🤔 Ощущается как: " : String) = "°C" ++ "\n🤔 Ощущается как: " from rfl]
  simp only [String.data_append, List.append_assoc]
  exact ⟨("🌤 Прогноз погоды для города " : String).data ++
      city.data ++
      ("\n\n" : String).data,
    ("\n🤔 Ощущается как: " : String).data ++
      fl.data ++
      ("°C\n☁️ Описание: " : String).data ++
      desc.data ++
      ("\n💧 Влажность: " : String).data ++
      hum.data ++
      ("%\n💨 Скорость ветра: " : String).data ++
      wind.data ++
      (" м/с\n\n📅 Дата: " : String).data ++
      dS.data ++
      ("\n⏰ Время: " : String).data ++
      tS.data,
    by simp [List.append_assoc]⟩

lemma sm_contains_flBlock (city temp fl desc hum wind dS tS : String) :
    strContains (strippedMessage city temp fl desc hum wind dS tS)
      ("🤔 Ощущается как: " ++ fl ++ "°C") := by
  unfold strContains strippedMessage
  rw [show ("°C\n🤔 Ощущается как: " : String) = "°C\n" ++ "🤔 Ощущается как: " from rfl,
    show ("°C\n☁️ Описание: " : String) = "°C" ++ "\n☁️ Описание: " from rfl]
  simp only [String.data_append, List.append_assoc]
  exact ⟨("🌤 Прогноз погоды для города " : String).data ++
      city.data ++
      ("\n\n🌡 Температура: " : String).data ++
      temp.data ++
      ("°C\n" : String).data,
    ("\n☁️ Описание: " : String).data ++
      desc.data ++
      ("\n💧 Влажность: " : String).data ++
      hum.data ++
      ("%\n💨 Скорость ветра: " : String).data ++
      wind.data ++
      (" м/с\n\n📅 Дата: " : String).data ++
      dS.data ++
      ("\n⏰ Время: " : String).data ++
      tS.data,
    by simp [List.append_assoc]⟩

lemma sm_contains_humBlock (city temp fl desc hum wind dS tS : String) :
    strContains (strippedMessage city temp fl desc hum wind dS tS)
      ("💧 Влажность: " ++ hum ++ "%") := by
  unfold strContains strippedMessage
  rw [show ("\n💧 Влажность: " : String) = "\n" ++ "💧 Влажность: " from rfl,
    show ("%\n💨 Скорость ветра: " : String) = "%" ++ "\n💨 Скорость ветра: " from rfl]
  simp only [String.data_append, List.append_assoc]
  exact ⟨("🌤 Прогноз погоды для города " : String).data ++
      city.data ++
      ("\n\n🌡 Температура: " : String).data ++
      temp.data ++
      ("°C\n🤔 Ощущается как: " : String).data ++
      fl.data ++
      ("°C\n☁️ Описание: " : String).data ++
      desc.data ++
      ("\n" : String).data,
    ("\n💨 Скорость ветра: " : String).data ++
      wind.data ++
      (" м/с\n\n📅 Дата: " : String).data ++
      dS.data ++
      ("\n⏰ Время: " : String).data ++
      tS.data,
    by simp [List.append_assoc]⟩

lemma sm_contains_windBlock (city temp fl desc hum wind dS tS : String) :
    strContains (strippedMessage city temp fl desc hum wind dS tS)
      ("💨 Скорость ветра: " ++ wind ++ " м/с") := by
  unfold strContains strippedMessage
  rw [show ("%\n💨 Скорость ветра: " : String) = "%\n" ++ "💨 Скорость ветра: " from rfl,
    show (" м/с\n\n📅 Дата: " : String) = " м/с" ++ "\n\n📅 Дата: " from rfl]
  simp only [String.data_append, List.append_assoc]
  exact ⟨("🌤 Прогноз погоды для города " : String).data ++
      city.data ++
      ("\n\n🌡 Температура: " : String).data ++
      temp.data ++
      ("°C\n🤔 Ощущается как: " : String).data ++
      fl.data ++
      ("°C\n☁️ Описание: " : String).data ++
      desc.data ++
      ("\n💧 Влажность: " : String).data ++
      hum.data ++
      ("%\n" : String).data,
    ("\n\n📅 Дата: " : String).data ++
      dS.data ++
      ("\n⏰ Время: " : String).data ++
      tS.data,
    by simp [List.append_assoc]⟩

lemma halfEvenRound_dist (m : Int) (e : Nat) :
    |(m : ℚ) / (10 : ℚ) ^ e - (halfEvenRound m e : ℚ)| ≤ 1 / 2 := by
  have hd : (0:ℤ) < 10 ^ e := pow_pos (by norm_num) e
  have hqr : (10:ℤ) ^ e * m.ediv ((10:ℤ) ^ e) + m.emod ((10:ℤ) ^ e) = m :=
    Int.ediv_add_emod m _
  have hr0 : (0:ℤ) ≤ m.emod ((10:ℤ) ^ e) := Int.emod_nonneg m (ne_of_gt hd)
  have hrd : m.emod ((10:ℤ) ^ e) < 10 ^ e := Int.emod_lt_of_pos m hd
  have hdQ : (0:ℚ) < (10:ℚ) ^ e := by positivity
  have hm : (m:ℚ) = (10:ℚ) ^ e * (m.ediv ((10:ℤ) ^ e) : ℚ) + (m.emod ((10:ℤ) ^ e) : ℚ) := by
    have hq := congrArg (fun z : ℤ => (z : ℚ)) hqr
    push_cast at hq
    linarith
  have hsplit : (m:ℚ) / (10:ℚ) ^ e =
      (m.ediv ((10:ℤ) ^ e) : ℚ) + (m.emod ((10:ℤ) ^ e) : ℚ) / (10:ℚ) ^ e := by
    rw [hm]; field_simp; ring
  have hr0' : (0:ℚ) ≤ (m.emod ((10:ℤ) ^ e) : ℚ) := by exact_mod_cast hr0
  have hrd' : (m.emod ((10:ℤ) ^ e) : ℚ) < (10:ℚ) ^ e := by exact_mod_cast hrd
  simp only [halfEvenRound]
  split_ifs with h1 h2 h3
  · have h1' : 2 * (m.emod ((10:ℤ) ^ e) : ℚ) < (10:ℚ) ^ e := by exact_mod_cast h1
    rw [hsplit, abs_le]
    constructor
    · have : (0:ℚ) ≤ (m.emod ((10:ℤ) ^ e) : ℚ) / (10:ℚ) ^ e := by positivity
      linarith
    · rw [add_sub_cancel_left, div_le_iff₀ hdQ]
      linarith
  · have h2' : (10:ℚ) ^ e < 2 * (m.emod ((10:ℤ) ^ e) : ℚ) := by exact_mod_cast h2
    rw [hsplit, abs_le]
    push_cast
    constructor
    · rw [show (m.ediv ((10:ℤ) ^ e) : ℚ) + (m.emod ((10:ℤ) ^ e) : ℚ) / (10:ℚ) ^ e -
          ((m.ediv ((10:ℤ) ^ e) : ℚ) + 1) = (m.emod ((10:ℤ) ^ e) : ℚ) / (10:ℚ) ^ e - 1
          from by ring, le_sub_iff_add_le, le_div_iff₀ hdQ]
      linarith
    · rw [show (m.ediv ((10:ℤ) ^ e) : ℚ) + (m.emod ((10:ℤ) ^ e) : ℚ) / (10:ℚ) ^ e -
          ((m.ediv ((10:ℤ) ^ e) : ℚ) + 1) = (m.emod ((10:ℤ) ^ e) : ℚ) / (10:ℚ) ^ e - 1
          from by ring]
      have : (m.emod ((10:ℤ) ^ e) : ℚ) / (10:ℚ) ^ e < 1 := by
        rw [div_lt_one hdQ]; linarith
      linarith
  · have htie : 2 * (m.emod ((10:ℤ) ^ e) : ℚ) = (10:ℚ) ^ e := by
      exact_mod_cast le_antisymm (not_lt.mp h2) (not_lt.mp h1)
    rw [hsplit, abs_le]
    have : (m.emod ((10:ℤ) ^ e) : ℚ) / (10:ℚ) ^ e = 1 / 2 := by
      rw [div_eq_div_iff (ne_of_gt hdQ) (by norm_num : (2:ℚ) ≠ 0)]; linarith
    constructor <;> linarith [this]
  · have htie2 : 2 * (m.emod ((10:ℤ) ^ e) : ℚ) = (10:ℚ) ^ e := by
      exact_mod_cast le_antisymm (not_lt.mp h2) (not_lt.mp h1)
    rw [hsplit, abs_le]
    push_cast
    have : (m.emod ((10:ℤ) ^ e) : ℚ) / (10:ℚ) ^ e = 1 / 2 := by
      rw [div_eq_div_iff (ne_of_gt hdQ) (by norm_num : (2:ℚ) ≠ 0)]; linarith
    constructor <;> linarith [this]

lemma halfEvenRound_tie (m : Int) (e : Nat) (k : Int)
    (h : (m : ℚ) / (10 : ℚ) ^ e = (k : ℚ) + 1 / 2) :
    (halfEvenRound m e).emod 2 = 0 := by
  have hd : (0:ℤ) < 10 ^ e := pow_pos (by norm_num) e
  have hqr : (10:ℤ) ^ e * m.ediv ((10:ℤ) ^ e) + m.emod ((10:ℤ) ^ e) = m :=
    Int.ediv_add_emod m _
  have hr0 : (0:ℤ) ≤ m.emod ((10:ℤ) ^ e) := Int.emod_nonneg m (ne_of_gt hd)
  have hrd : m.emod ((10:ℤ) ^ e) < 10 ^ e := Int.emod_lt_of_pos m hd
  have hdQ : (0:ℚ) < (10:ℚ) ^ e := by positivity
  have hm : (m:ℚ) = (10:ℚ) ^ e * (m.ediv ((10:ℤ) ^ e) : ℚ) + (m.emod ((10:ℤ) ^ e) : ℚ) := by
    have hq := congrArg (fun z : ℤ => (z : ℚ)) hqr
    push_cast at hq
    linarith
  have hsplit : (m:ℚ) / (10:ℚ) ^ e =
      (m.ediv ((10:ℤ) ^ e) : ℚ) + (m.emod ((10:ℤ) ^ e) : ℚ) / (10:ℚ) ^ e := by
    rw [hm]; field_simp; ring
  have hr0' : (0:ℚ) ≤ (m.emod ((10:ℤ) ^ e) : ℚ) := by exact_mod_cast hr0
  have hrd' : (m.emod ((10:ℤ) ^ e) : ℚ) < (10:ℚ) ^ e := by exact_mod_cast hrd
  have hfrac0 : (0:ℚ) ≤ (m.emod ((10:ℤ) ^ e) : ℚ) / (10:ℚ) ^ e := by positivity
  have hfrac1 : (m.emod ((10:ℤ) ^ e) : ℚ) / (10:ℚ) ^ e < 1 := by
    rw [div_lt_one hdQ]; exact hrd'
  have hkq : k = m.ediv ((10:ℤ) ^ e) := by
    have habs : |(k : ℚ) - (m.ediv ((10:ℤ) ^ e) : ℚ)| < 1 := by
      rw [hsplit] at h
      rw [abs_lt]
      constructor <;> linarith
    have habs' : |k - m.ediv ((10:ℤ) ^ e)| < 1 := by exact_mod_cast habs
    rcases abs_lt.mp habs' with ⟨ha, hb⟩
    omega
  have h2r : 2 * m.emod ((10:ℤ) ^ e) = (10:ℤ) ^ e := by
    rw [hsplit, hkq] at h
    have : (m.emod ((10:ℤ) ^ e) : ℚ) / (10:ℚ) ^ e = 1 / 2 := by linarith
    rw [div_eq_div_iff (ne_of_gt hdQ) (by norm_num : (2:ℚ) ≠ 0)] at this
    have h2 : 2 * (m.emod ((10:ℤ) ^ e) : ℚ) = (((10:ℤ) ^ e : ℤ) : ℚ) := by push_cast at this ⊢; linarith
    exact_mod_cast h2
  simp only [halfEvenRound]
  rw [if_neg (by omega), if_neg (by omega)]
  simp only [show ∀ a : ℤ, a.emod 2 = a % 2 from fun a => rfl]
  rcases Int.emod_two_eq_zero_or_one (m.ediv ((10:ℤ) ^ e)) with hpar | hpar
  · rw [if_pos hpar]; exact hpar
  · rw [if_neg (by rw [hpar]; norm_num), Int.add_emod, hpar]
    decide

/-! ## The claims -/

/-- Claim C1, counterexample: a 2xx response whose body is missing required
fields (here, everything except the location name) does not yield `None` —
`get_weather` returns the partial body unchanged, contradicting the claim that
a missing required field yields an explicit Failure. -/
theorem c1_missing_field_not_failure :
    get_weather (HttpOutcome.response 200 (Json.obj [("name", Json.str "Moscow")])) =
      some (Json.obj [("name", Json.str "Moscow")]) ∧
    get_weather (HttpOutcome.response 200 (Json.obj [("name", Json.str "Moscow")])) ≠ none := by
  refine ⟨rfl, ?_⟩
  intro h
  rw [show get_weather (HttpOutcome.response 200 (Json.obj [("name", Json.str "Moscow")])) =
      some (Json.obj [("name", Json.str "Moscow")]) from rfl] at h
  exact Option.noConfusion h

/-- Claim C1, amended: `get_weather` returns `None` exactly on request
exceptions (network error, timeout) and on HTTP 4xx/5xx statuses (raised by
`raise_for_status` and caught as `RequestException`); for any other status the
parsed body is returned as-is, with no validation of required fields. -/
theorem c1_get_weather_failure_conditions (r : ReqFailure) (s : Nat) (b : Json) :
    get_weather (.exc r) = none ∧
    (400 ≤ s ∧ s < 600 → get_weather (.response s b) = none) ∧
    (s < 400 ∨ 600 ≤ s → get_weather (.response s b) = some b) := by
  refine ⟨rfl, ?_, ?_⟩
  · intro hs
    simp only [get_weather, raise_for_status, decide_eq_true_eq]
    rw [if_pos hs]
  · intro hs
    simp only [get_weather, raise_for_status, decide_eq_true_eq]
    rw [if_neg (by omega)]

/-- Witness for `c1_get_weather_failure_conditions` at a timeout, a 404
response, and a 200 response with an incomplete body. -/
theorem c1_get_weather_failure_conditions_witness :
    get_weather (.exc .timeout) = none ∧
    get_weather (.response 404 (Json.obj [])) = none ∧
    get_weather (.response 200 (Json.obj [])) = some (Json.obj []) :=
  ⟨(c1_get_weather_failure_conditions .timeout 404 (Json.obj [])).1,
    (c1_get_weather_failure_conditions .timeout 404 (Json.obj [])).2.1 (by norm_num),
    (c1_get_weather_failure_conditions .timeout 200 (Json.obj [])).2.2 (Or.inl (by norm_num))⟩

/-- Claim C2, counterexample: `format_weather_message` takes no timestamp
parameter in the source — it reads the global clock (`datetime.now()`).  With
the ambient clock made explicit, the same weather data at two different clock
states produces two different strings, so the output is not a function of the
weather data alone. -/
theorem c2_output_depends_on_clock :
    format_weather_message (some sampleWeather) ⟨2, 1, 2024, 8, 0⟩ ⟨2, 1, 2024, 8, 0⟩ ≠
      format_weather_message (some sampleWeather) ⟨3, 1, 2024, 8, 0⟩ ⟨3, 1, 2024, 8, 0⟩ := by
  intro h
  rw [show format_weather_message (some sampleWeather) ⟨2, 1, 2024, 8, 0⟩ ⟨2, 1, 2024, 8, 0⟩ =
      .ok sampleMessage from rfl] at h
  exact absurd (Except.ok.inj h) (by decide)

/-- Claim C2, amended: `format_weather_message` reads the global clock
(`datetime.now()`, twice) instead of receiving a timestamp input; it is pure
and deterministic given the weather data and those ambient clock readings, and
depends on the readings only through the rendered date and time strings. -/
theorem c2_deterministic_given_clock_readings (wd : Option Json)
    (a1 a2 b1 b2 : PyDateTime) (h1 : dateStr a1 = dateStr b1)
    (h2 : timeStr a2 = timeStr b2) :
    format_weather_message wd a1 a2 = format_weather_message wd b1 b2 := by
  cases wd <;> simp only [format_weather_message, h1, h2]

/-- Witness for `c2_deterministic_given_clock_readings`: clock readings that
differ in unrendered components give identical messages. -/
theorem c2_deterministic_given_clock_readings_witness :
    format_weather_message (some sampleWeather) ⟨1, 1, 2024, 23, 59⟩ ⟨5, 5, 2020, 8, 0⟩ =
      format_weather_message (some sampleWeather) ⟨1, 1, 2024, 0, 0⟩ ⟨9, 9, 2021, 8, 0⟩ :=
  c2_deterministic_given_clock_readings (some sampleWeather) _ _ _ _ rfl rfl

set_option maxRecDepth 8192 in
/-- Claim C3, counterexample: on the spec-scenario input (temperature `3.2`,
description `"snow"`) the produced message contains neither `"3.2"` nor
`"snow"` verbatim — the temperature is rounded and the description
capitalized before being embedded. -/
theorem c3_not_verbatim :
    format_weather_message (some sampleWeather) ⟨2, 1, 2024, 8, 0⟩ ⟨2, 1, 2024, 8, 0⟩ =
      .ok sampleMessage ∧
    ¬ strContains sampleMessage "3.2" ∧ ¬ strContains sampleMessage "snow" :=
  ⟨rfl, by decide, by decide⟩

/-- Claim C3, amended: for every valid `WeatherReport` input (an object with
all six required fields), `format_weather_message` succeeds and the message
contains the city name, the humidity and the wind speed verbatim, and the two
temperature values rounded (and the description capitalized) rather than
verbatim. -/
theorem c3_format_contains_fields (fields mainF wf windF : List (String × Json))
    (city : String) (tn fn sp : PyNum) (hm : Json) (desc : String)
    (wrest : List Json) (n1 n2 : PyDateTime)
    (hname : fields.lookup "name" = some (.str city))
    (hmain : fields.lookup "main" = some (.obj mainF))
    (htemp : mainF.lookup "temp" = some (.num tn))
    (hfl : mainF.lookup "feels_like" = some (.num fn))
    (hweather : fields.lookup "weather" = some (.arr (Json.obj wf :: wrest)))
    (hdesc : wf.lookup "description" = some (.str desc))
    (hhum : mainF.lookup "humidity" = some hm)
    (hwind : fields.lookup "wind" = some (.obj windF))
    (hspeed : windF.lookup "speed" = some (.num sp)) :
    ∃ msg, format_weather_message (some (.obj fields)) n1 n2 = .ok msg ∧
      strContains msg city ∧
      strContains msg (intRepr (pyRoundNum tn)) ∧
      strContains msg (intRepr (pyRoundNum fn)) ∧
      strContains msg (pyCapitalize desc) ∧
      strContains msg (pyStr hm) ∧
      strContains msg (pyStr (.num sp)) := by
  refine ⟨_, format_eval fields mainF wf windF city tn fn sp hm desc wrest n1 n2
      hname hmain htemp hfl hweather hdesc hhum hwind hspeed,
    sm_contains_city _ _ _ _ _ _ _ _, sm_contains_tempv _ _ _ _ _ _ _ _,
    sm_contains_flv _ _ _ _ _ _ _ _, sm_contains_desc _ _ _ _ _ _ _ _,
    sm_contains_hum _ _ _ _ _ _ _ _, sm_contains_wind _ _ _ _ _ _ _ _⟩

/-- Witness for `c3_format_contains_fields` on the spec-scenario body. -/
theorem c3_format_contains_fields_witness :
    ∃ msg, format_weather_message (some (.obj sampleFields)) ⟨2, 1, 2024, 8, 0⟩
        ⟨2, 1, 2024, 8, 0⟩ = .ok msg ∧
      strContains msg "Moscow" ∧
      strContains msg (intRepr (pyRoundNum (.float 32 1))) ∧
      strContains msg (intRepr (pyRoundNum (.float (-10) 1))) ∧
      strContains msg (pyCapitalize "snow") ∧
      strContains msg (pyStr (.num (.int 80))) ∧
      strContains msg (pyStr (.num (.float 41 1))) :=
  c3_format_contains_fields sampleFields sampleMain sampleWf sampleWind "Moscow"
    (.float 32 1) (.float (-10) 1) (.float 41 1) (.num (.int 80)) "snow" []
    ⟨2, 1, 2024, 8, 0⟩ ⟨2, 1, 2024, 8, 0⟩ rfl rfl rfl rfl rfl rfl rfl rfl rfl

/-- Claim C4 (confirmed): on a Failure/null input `format_weather_message`
returns the fixed human-readable error string, and never raises — the result
is `ok`, not an exception. -/
theorem c4_format_failure_fixed_string (n1 n2 : PyDateTime) :
    format_weather_message none n1 n2 =
      .ok "❌ Не удалось получить данные о погоде." := rfl

/-- Claim C5 (confirmed): whenever any step of the weather-command flow
(fetch, truthiness test, formatting, reply construction) raises an exception,
`weather_handler` catches it and replies with the generic error string
carrying `str(e)`; the handler always returns a reply string, so no exception
propagates out of it. -/
theorem c5_handler_catches_all (fetchR : Except PyErr (Option Json))
    (n1 n2 : PyDateTime) (e : PyErr)
    (herr : weather_command_flow fetchR n1 n2 = .error e) :
    weather_handler fetchR n1 n2 = "❌ Произошла ошибка: " ++ pyErrStr e ∧
    strContains (weather_handler fetchR n1 n2) (pyErrStr e) := by
  have hh : weather_handler fetchR n1 n2 = "❌ Произошла ошибка: " ++ pyErrStr e := by
    unfold weather_handler
    rw [herr]
  refine ⟨hh, ?_⟩
  rw [hh]
  exact ⟨("❌ Произошла ошибка: " : String).data, [],
    by simp [String.data_append]⟩

/-- Witness for `c5_handler_catches_all`: a fetched body without the `"name"`
field makes the formatter raise `KeyError('name')`, and the handler replies
with the generic error string containing `'name'`. -/
theorem c5_handler_catches_all_witness :
    weather_handler (.ok (some (Json.obj [("a", Json.null)]))) ⟨1, 1, 2024, 8, 0⟩
        ⟨1, 1, 2024, 8, 0⟩ = "❌ Произошла ошибка: " ++ pyErrStr (.keyError "name") ∧
    strContains (weather_handler (.ok (some (Json.obj [("a", Json.null)])))
      ⟨1, 1, 2024, 8, 0⟩ ⟨1, 1, 2024, 8, 0⟩) (pyErrStr (.keyError "name")) :=
  c5_handler_catches_all (.ok (some (Json.obj [("a", Json.null)])))
    ⟨1, 1, 2024, 8, 0⟩ ⟨1, 1, 2024, 8, 0⟩ (.keyError "name") rfl

/-- Claim C6 (confirmed): registering the daily job twice with the fixed
identifier `'weather_update'` and `replace_existing=True` (as `main()` does)
leaves exactly one registered job, and for every wall-clock minute of the day
exactly one job fires at 08:00 and none at any other time. -/
theorem c6_register_twice_idempotent :
    (register_weather_job []).bind register_weather_job =
      Except.ok [({ id := "weather_update", hour := 8, minute := 0 } : SchedJob)] ∧
    ∀ h m : Nat,
      (([({ id := "weather_update", hour := 8, minute := 0 } : SchedJob)].filter
        fun j => firesAt j h m).length = if h = 8 ∧ m = 0 then 1 else 0) := by
  refine ⟨rfl, ?_⟩
  intro h m
  by_cases hh : h = 8 <;> by_cases hm : m = 0 <;>
    simp [firesAt, List.filter, hh, hm, eq_comm]

/-- Claim C7 (confirmed): if any of the three required configuration values is
missing (or empty) in the environment, module initialisation aborts with the
descriptive `ValueError` message naming a missing variable, and the process
performs no network interaction on that path. -/
theorem c7_missing_config_aborts (env : String → Option String)
    (h : envFalsy (env "TELEGRAM_BOT_TOKEN") = true ∨
      envFalsy (env "TELEGRAM_CHAT_ID") = true ∨
      envFalsy (env "OPENWEATHER_API_KEY") = true) :
    (process_start env).1 = [] ∧
    ∃ v, envFalsy (env v) = true ∧
      (process_start env).2 = .error (v ++ " не установлен! Добавьте его в файл .env") := by
  by_cases h1 : envFalsy (env "TELEGRAM_BOT_TOKEN") = true
  · have hmi : module_init env =
        .error "TELEGRAM_BOT_TOKEN не установлен! Добавьте его в файл .env" := by
      unfold module_init
      rw [if_pos h1]
    unfold process_start
    rw [hmi]
    exact ⟨rfl, "TELEGRAM_BOT_TOKEN", h1, rfl⟩
  · have h1f : envFalsy (env "TELEGRAM_BOT_TOKEN") = false :=
      Bool.eq_false_iff.mpr (fun hx => h1 hx)
    by_cases h2 : envFalsy (env "TELEGRAM_CHAT_ID") = true
    · have hmi : module_init env =
          .error "TELEGRAM_CHAT_ID не установлен! Добавьте его в файл .env" := by
        simp [module_init, h1f, h2]
      unfold process_start
      rw [hmi]
      exact ⟨rfl, "TELEGRAM_CHAT_ID", h2, rfl⟩
    · have h2f : envFalsy (env "TELEGRAM_CHAT_ID") = false :=
        Bool.eq_false_iff.mpr (fun hx => h2 hx)
      have h3 : envFalsy (env "OPENWEATHER_API_KEY") = true := by
        rcases h with ha | hb | hc
        · exact absurd ha h1
        · exact absurd hb h2
        · exact hc
      have hmi : module_init env =
          .error "OPENWEATHER_API_KEY не установлен! Добавьте его в файл .env" := by
        simp [module_init, h1f, h2f, h3]
      unfold process_start
      rw [hmi]
      exact ⟨rfl, "OPENWEATHER_API_KEY", h3, rfl⟩

/-- Witness for `c7_missing_config_aborts` on an empty environment. -/
theorem c7_missing_config_aborts_witness :
    (process_start fun _ => none).1 = [] ∧
    ∃ v, envFalsy ((fun _ => (none : Option String)) v) = true ∧
      (process_start fun _ => none).2 =
        .error (v ++ " не установлен! Добавьте его в файл .env") :=
  c7_missing_config_aborts (fun _ => none) (Or.inl rfl)

/-- Claim C8 (confirmed): when the messaging provider fails during a scheduled
send, `send_weather_update` returns normally (no exception), makes exactly one
send attempt (no retry), and logs the provider error.  Because it returns
rather than raises, a failed send cannot crash the process or unregister the
scheduled job. -/
theorem c8_send_provider_error_contained (wd : Option Json) (n1 n2 : PyDateTime)
    (msg err : String) (hfmt : format_weather_message wd n1 n2 = .ok msg) :
    send_weather_update wd n1 n2 (.failure err) =
      .ok [.attempt msg, .logError err] ∧
    countAttempts [SendEvent.attempt msg, SendEvent.logError err] = 1 ∧
    SendEvent.logError err ∈ [SendEvent.attempt msg, SendEvent.logError err] := by
  refine ⟨?_, rfl, by simp⟩
  unfold send_weather_update
  rw [hfmt]

/-- Witness for `c8_send_provider_error_contained` on a fetch failure followed
by a provider failure. -/
theorem c8_send_provider_error_contained_witness :
    send_weather_update none ⟨1, 1, 2024, 8, 0⟩ ⟨1, 1, 2024, 8, 0⟩ (.failure "Bad Request") =
      .ok [.attempt errNoData, .logError "Bad Request"] ∧
    countAttempts [SendEvent.attempt errNoData, SendEvent.logError "Bad Request"] = 1 ∧
    SendEvent.logError "Bad Request" ∈
      [SendEvent.attempt errNoData, SendEvent.logError "Bad Request"] :=
  c8_send_provider_error_contained none ⟨1, 1, 2024, 8, 0⟩ ⟨1, 1, 2024, 8, 0⟩
    errNoData "Bad Request" rfl

/-- Claim C9 (confirmed): `format_weather_message` treats every falsy input as
a Failure — any value that Python's `if not weather_data:` test (line 88)
rejects, be it `None`, the empty dict `{}`, an empty list, an empty string, or
a zero, yields the fixed error string as an `ok` result, never a raised
missing-field error. -/
theorem c9_falsy_input_no_data (wd : Option Json) (n1 n2 : PyDateTime)
    (hfalsy : optTruthy wd = false) :
    format_weather_message wd n1 n2 = .ok errNoData := by
  cases wd with
  | none => rfl
  | some j =>
    have hj : j.truthy = false := hfalsy
    simp [format_weather_message, hj]

/-- Witness for `c9_falsy_input_no_data` at the empty-but-non-null dict `{}`
(and, via the hypothesis, the falsiness test evaluated concretely). -/
theorem c9_falsy_input_no_data_witness :
    format_weather_message (some (Json.obj [])) ⟨1, 1, 2024, 8, 0⟩ ⟨1, 1, 2024, 8, 0⟩ =
      .ok errNoData :=
  c9_falsy_input_no_data (some (Json.obj [])) ⟨1, 1, 2024, 8, 0⟩ ⟨1, 1, 2024, 8, 0⟩ rfl

/-- Claim C10 (confirmed): for every valid report the message embeds both
temperature values through the same rounding function `halfEvenRound` —
which rounds to a nearest integer (distance at most 1/2) and sends exact
halves to the even integer (Python `round`, banker's rounding) — while the
humidity and wind-speed values are embedded at full precision via their
unrounded `str` rendering. -/
theorem c10_rounding_policy (fields mainF wf windF : List (String × Json))
    (city : String) (tn fn sp : PyNum) (hm : Json) (desc : String)
    (wrest : List Json) (n1 n2 : PyDateTime)
    (hname : fields.lookup "name" = some (.str city))
    (hmain : fields.lookup "main" = some (.obj mainF))
    (htemp : mainF.lookup "temp" = some (.num tn))
    (hfl : mainF.lookup "feels_like" = some (.num fn))
    (hweather : fields.lookup "weather" = some (.arr (Json.obj wf :: wrest)))
    (hdesc : wf.lookup "description" = some (.str desc))
    (hhum : mainF.lookup "humidity" = some hm)
    (hwind : fields.lookup "wind" = some (.obj windF))
    (hspeed : windF.lookup "speed" = some (.num sp)) :
    ∃ msg, format_weather_message (some (.obj fields)) n1 n2 = .ok msg ∧
      strContains msg ("🌡 Температура: " ++ intRepr (pyRoundNum tn) ++ "°C") ∧
      strContains msg ("🤔 Ощущается как: " ++ intRepr (pyRoundNum fn) ++ "°C") ∧
      strContains msg ("💧 Влажность: " ++ pyStr hm ++ "%") ∧
      strContains msg ("💨 Скорость ветра: " ++ pyStr (.num sp) ++ " м/с") ∧
      (∀ (a : Int) (b : Nat), |(a : ℚ) / (10 : ℚ) ^ b - (halfEvenRound a b : ℚ)| ≤ 1 / 2) ∧
      (∀ (a : Int) (b : Nat) (k : Int), (a : ℚ) / (10 : ℚ) ^ b = (k : ℚ) + 1 / 2 →
        (halfEvenRound a b).emod 2 = 0) ∧
      (∀ z : Int, pyRoundNum (.int z) = z) :=
  ⟨_, format_eval fields mainF wf windF city tn fn sp hm desc wrest n1 n2
      hname hmain htemp hfl hweather hdesc hhum hwind hspeed,
    sm_contains_tempBlock _ _ _ _ _ _ _ _, sm_contains_flBlock _ _ _ _ _ _ _ _,
    sm_contains_humBlock _ _ _ _ _ _ _ _, sm_contains_windBlock _ _ _ _ _ _ _ _,
    halfEvenRound_dist, fun a b k hk => halfEvenRound_tie a b k hk,
    fun _ => rfl⟩

/-- Witness for `c10_rounding_policy` on tie-valued temperatures
(`temp = 2.5`, `feels_like = 3.5`). -/
theorem c10_rounding_policy_witness :
    ∃ msg, format_weather_message (some (.obj tieFields)) ⟨2, 1, 2024, 8, 0⟩
        ⟨2, 1, 2024, 8, 0⟩ = .ok msg ∧
      strContains msg ("🌡 Температура: " ++ intRepr (pyRoundNum (.float 25 1)) ++ "°C") ∧
      strContains msg ("🤔 Ощущается как: " ++ intRepr (pyRoundNum (.float 35 1)) ++ "°C") ∧
      strContains msg ("💧 Влажность: " ++ pyStr (.num (.int 80)) ++ "%") ∧
      strContains msg ("💨 Скорость ветра: " ++ pyStr (.num (.float 41 1)) ++ " м/с") ∧
      (∀ (a : Int) (b : Nat), |(a : ℚ) / (10 : ℚ) ^ b - (halfEvenRound a b : ℚ)| ≤ 1 / 2) ∧
      (∀ (a : Int) (b : Nat) (k : Int), (a : ℚ) / (10 : ℚ) ^ b = (k : ℚ) + 1 / 2 →
        (halfEvenRound a b).emod 2 = 0) ∧
      (∀ z : Int, pyRoundNum (.int z) = z) :=
  c10_rounding_policy tieFields tieMain sampleWf sampleWind "Moscow"
    (.float 25 1) (.float 35 1) (.float 41 1) (.num (.int 80)) "snow" []
    ⟨2, 1, 2024, 8, 0⟩ ⟨2, 1, 2024, 8, 0⟩ rfl rfl rfl rfl rfl rfl rfl rfl rfl
